import Mathlib

/-!
Verification of the trading-data dashboard script `src/ap.py`.

The development shallowly embeds the two functions with decision logic,
`load_data` and `display_data_block`, over an explicit model of the parsed
CSV table (`DataFrame`), the file system (`FileSys`), and the diagnostic
messages emitted to the status surface (`LogMsg`).  The external collaborators
(`pandas.read_csv`, the streamlit widgets) are treated as black boxes: a file
either is absent, fails to parse, or yields a `DataFrame`; widget calls are
recorded as data.  Column names produced by the CSV reader are pairwise
distinct (the reader mangles duplicate headers), but distinct raw names may
still collide after whitespace stripping, so label-based column selection is
modelled as selecting every column carrying the label.
-/

namespace WebJr

/-- ASCII whitespace, as stripped by Python `str.strip`. -/
def isWs (c : Char) : Bool :=
  c = ' ' || c = '\t' || c = '\n' || c = '\r' || c = '\x0b' || c = '\x0c'

/-- Python `str.strip`: drop leading and trailing whitespace. -/
def trimStr (s : String) : String :=
  ⟨((s.data.dropWhile isWs).reverse.dropWhile isWs).reverse⟩

/-- `strStarts pat l`: `pat` is an initial segment of `l`. -/
def strStarts : List Char → List Char → Bool
  | [], _ => true
  | _ :: _, [] => false
  | p :: ps, c :: cs => p = c && strStarts ps cs

/-- `subAt pat l`: `pat` occurs as a contiguous run somewhere in `l`. -/
def subAt (pat : List Char) : List Char → Bool
  | [] => strStarts pat []
  | c :: cs => strStarts pat (c :: cs) || subAt pat cs

/-- Python substring membership `pat in s`. -/
def strContains (s pat : String) : Bool := subAt pat.data s.data

/-- Lower-case an ASCII letter (identity elsewhere). -/
def lowerChar (c : Char) : Char :=
  if 'A' ≤ c && c ≤ 'Z' then Char.ofNat (c.toNat + 32) else c

/-- A cell of the parsed table: missing (NaN), a string, or a number. -/
inductive Cell where
  | na : Cell
  | str (s : String) : Cell
  | num (q : ℚ) : Cell
deriving DecidableEq

/-- The output of the external CSV reader: a header row of column names and
the data rows. -/
structure DataFrame where
  cols : List String
  rows : List (List Cell)
deriving DecidableEq

/-- Numeric value of a digit character. -/
def digitVal (c : Char) : Option Nat := if c.isDigit then some (c.toNat - 48) else none

/-- Accumulate a decimal number from digit characters. -/
def digitsAux : List Char → Nat → Option Nat
  | [], acc => some acc
  | c :: cs, acc =>
    match digitVal c with
    | some d => digitsAux cs (acc * 10 + d)
    | none => none

/-- Parse a nonempty all-digit character list as a decimal number. -/
def digitsToNat : List Char → Option Nat
  | [] => none
  | l => digitsAux l 0

/-- Split a character list at every dash. -/
def splitDash : List Char → List (List Char)
  | [] => [[]]
  | c :: cs =>
    let r := splitDash cs
    if c = '-' then [] :: r
    else
      match r with
      | [] => [[c]]
      | h :: t => (c :: h) :: t

/-- Modelled date parser for the external `to_datetime`: accepts `YYYY-MM-DD`
strings and encodes the date as `y*10000 + m*100 + d`; anything else fails. -/
def parseYmd (s : String) : Option Nat :=
  match splitDash s.data with
  | [ys, ms, ds] =>
    match digitsToNat ys, digitsToNat ms, digitsToNat ds with
    | some y, some m, some d =>
      if 1 ≤ m && m ≤ 12 && 1 ≤ d && d ≤ 31 then some (y * 10000 + m * 100 + d)
      else none
    | _, _, _ => none
  | _ => none

/-- A date cell parses only when it is a string holding a well-formed date. -/
def parseDateCell : Cell → Option Nat
  | Cell.str s => parseYmd s
  | _ => none

/-- Lines 41-42 of `src/ap.py`: look up the column labelled exactly `"Date"`
(before any stripping), parse every entry as a calendar date, and set it as
the index, removing it from the data columns.  Any failure is an exception
raised inside the `try` block, modelled as `Except.error`. -/
def stepDate (df : DataFrame) : Except String (List Nat × List String × List (List Cell)) :=
  match df.cols.findIdx? (fun c => c = "Date") with
  | none => Except.error "KeyError: \x27Date\x27"
  | some i =>
    match (df.rows.map (fun r => r.getD i Cell.na)).mapM parseDateCell with
    | none => Except.error "date parse error"
    | some dates =>
      Except.ok (dates, df.cols.eraseIdx i, df.rows.map (fun r => r.eraseIdx i))

/-- Line 50-51 of `src/ap.py`: `'Cumulative' in col or 'CUMULATIVE' in col`. -/
def cumulMatch (c : String) : Bool := strContains c "Cumulative" || strContains c "CUMULATIVE"

/-- Lines 57-58 / 68-69 of `src/ap.py`: `'Daily' in col or 'DAILY' in col`. -/
def dailyMatch (c : String) : Bool := strContains c "Daily" || strContains c "DAILY"

/-- Outcome of the column-selection policy: a selected column with its new
name, a missing-column warning, or no branch taken at all. -/
inductive SelOutcome where
  | sel (col newName : String)
  | warned (msg : String)
  | noSel
deriving DecidableEq

/-- Lines 46-75 of `src/ap.py`: the per-metric column-selection policy,
applied to the stripped data-column names. -/
def selectCore (data_type fn : String) (cols : List String) : SelOutcome :=
  if ["PnL", "Fee", "Funding"].contains data_type then
    match cols.filter cumulMatch with
    | c :: _ => SelOutcome.sel c (data_type ++ " Cumulative")
    | [] =>
      match cols.filter dailyMatch with
      | c :: _ => SelOutcome.sel c (data_type ++ " Daily")
      | [] =>
        SelOutcome.warned ("⚠️ No \x27Cumulative\x27 or \x27Daily\x27 columns found in " ++ fn)
  else if data_type = "Volume" then
    match cols.filter dailyMatch with
    | c :: _ => SelOutcome.sel c (data_type ++ " Daily")
    | [] => SelOutcome.warned ("⚠️ No \x27Daily\x27 columns found in " ++ fn)
  else SelOutcome.noSel

/-- The returned series: a date index paired with the selected data cells. -/
structure Series where
  cols : List String
  rows : List (Nat × List Cell)
deriving DecidableEq

/-- Indices of the columns carrying label `c` — pandas label selection
`df[[c]]` picks every one of them. -/
def labelIdxs (cols : List String) (c : String) : List Nat :=
  (List.range cols.length).filter (fun i => cols.getD i "" = c)

/-- Restrict one indexed row to the columns labelled `c`. -/
def projRow (cols : List String) (c : String) : Nat × List Cell → Nat × List Cell :=
  fun dr => (dr.1, (labelIdxs cols c).map (fun i => dr.2.getD i Cell.na))

/-- `dropna` keeps a row exactly when every kept cell is defined. -/
def rowDefined (dr : Nat × List Cell) : Bool := dr.2.all (fun x => x ≠ Cell.na)

/-- Lines 79-80 of `src/ap.py`: select the chosen column(s) by label, rename
them to `nn`, and drop the rows with missing values. -/
def buildSeries (dates : List Nat) (cols : List String) (rows : List (List Cell))
    (c nn : String) : Series :=
  { cols := (labelIdxs cols c).map (fun _ => nn),
    rows := ((dates.zip rows).map (projRow cols c)).filter rowDefined }

/-- A diagnostic message sent to the status surface. -/
inductive LogMsg where
  | errFileMissing (fn : String)
  | caption (fn : String)
  | warnNoColumn (msg : String)
  | errProcessing (fn msg : String)
deriving DecidableEq

/-- The body of the `try` block of `load_data` (lines 40-83), given the parsed
table: date indexing, column-name stripping, selection, missing-value drop.
The final `if selected_col:` is Python string truthiness, hence the emptiness
test on the selected label. -/
def processFrame (data_type fn : String) (df : DataFrame) :
    Except String (Option Series × List LogMsg) := do
  let (dates, cols0, rows) ← stepDate df
  let cols := cols0.map trimStr
  match selectCore data_type fn cols with
  | SelOutcome.sel c nn =>
    if c = "" then pure (none, [])
    else pure (some (buildSeries dates cols rows c nn), [])
  | SelOutcome.warned m => pure (none, [LogMsg.warnNoColumn m])
  | SelOutcome.noSel => pure (none, [])

/-- State of one file on disk: absent, unreadable (the CSV reader raises), or
a parsed table. -/
inductive FileState where
  | absent
  | unreadable (msg : String)
  | table (df : DataFrame)

/-- The local disk, mapping file names to their state. -/
def FileSys := String → FileState

/-- Line 29 of `src/ap.py`: the fixed file-naming template. -/
def fileName (data_type base_type : String) : String :=
  data_type ++ " - ETH - " ++ base_type ++ " - Records - 20250407 - 20251021.csv"

/-- `load_data` of `src/ap.py`: returns the series (or `none`) together with
the diagnostic messages emitted, in order.  The `try`/`except` wrapper turns
every `Except.error` of the processing into an error message plus `none`. -/
def load_data (fs : FileSys) (data_type base_type : String) :
    Option Series × List LogMsg :=
  let fn := fileName data_type base_type
  match fs fn with
  | FileState.absent => (none, [LogMsg.errFileMissing fn])
  | FileState.unreadable msg => (none, [LogMsg.errProcessing fn msg])
  | FileState.table df =>
    match processFrame data_type fn df with
    | Except.ok (res, logs) => (res, LogMsg.caption fn :: logs)
    | Except.error msg => (none, [LogMsg.caption fn, LogMsg.errProcessing fn msg])

/-- What `display_data_block` renders. -/
inductive DisplayOut where
  | noData (title : String)
  | block (title colName : String) (latest : Cell) (decimals : Nat) (unitStr : String)
      (chart : Series) (tailRows : List (Nat × List Cell))
deriving DecidableEq

/-- `display_data_block` of `src/ap.py` (lines 90-117).  The function has no
`try`, so an exception inside it is modelled as `Except.error`: selecting a
duplicated label yields a sub-table, and format-specifying a string raises. -/
def display_data_block (title : String) (df : Option Series) (unitStr : String) :
    Except String DisplayOut :=
  match df with
  | none => Except.ok (DisplayOut.noData title)
  | some s =>
    if s.cols.isEmpty || s.rows.isEmpty then Except.ok (DisplayOut.noData title)
    else
      let col_name := s.cols.headD ""
      match labelIdxs s.cols col_name with
      | [j] =>
        match s.rows.getLast? with
        | none => Except.error "IndexError"
        | some dr =>
          match dr.2.getD j Cell.na with
          | Cell.str _ => Except.error "ValueError: invalid format"
          | v =>
            Except.ok (DisplayOut.block title col_name v
              (if strContains col_name "Cumulative" then 2 else 4) unitStr s
              (s.rows.drop (s.rows.length - 7)))
      | _ => Except.error "TypeError: unsupported format"

/-- Case-insensitive substring test, following the SPEC wording
("case-insensitively, matching substring ..."); kept separate from the
code-derived matchers `cumulMatch`/`dailyMatch` for comparison. -/
def claimContainsCI (s pat : String) : Bool :=
  subAt (pat.data.map lowerChar) (s.data.map lowerChar)

/-- The spec-worded cumulative matcher: contains `"cumulative"` in any casing. -/
def claimCumulMatch (c : String) : Bool := claimContainsCI c "cumulative"

/-- The spec-worded daily matcher: contains `"daily"` in any casing. -/
def claimDailyMatch (c : String) : Bool := claimContainsCI c "daily"

/-! ### Helper lemmas -/

theorem strStarts_map (f : Char → Char) :
    ∀ pat l, strStarts pat l = true → strStarts (pat.map f) (l.map f) = true := by
  intro pat
  induction pat with
  | nil => intro l _; simp [strStarts]
  | cons p ps ih =>
    intro l h
    cases l with
    | nil => simp [strStarts] at h
    | cons c cs =>
      simp [strStarts] at h ⊢
      exact ⟨by rw [h.1], ih cs h.2⟩

theorem subAt_map (f : Char → Char) (pat : List Char) :
    ∀ l, subAt pat l = true → subAt (pat.map f) (l.map f) = true := by
  intro l
  induction l with
  | nil =>
    intro h
    cases pat with
    | nil => simp [subAt, strStarts]
    | cons p ps => simp [subAt, strStarts] at h
  | cons c cs ih =>
    intro h
    simp only [subAt, Bool.or_eq_true] at h ⊢
    rcases h with h | h
    · exact Or.inl (strStarts_map f _ _ h)
    · exact Or.inr (ih h)

theorem find?_filter_cons {α : Type} (p : α → Bool) :
    ∀ (l : List α) (c : α), l.find? p = some c → ∃ t, l.filter p = c :: t := by
  intro l
  induction l with
  | nil => intro c h; simp [List.find?] at h
  | cons a as ih =>
    intro c h
    by_cases hp : p a
    · rw [List.find?_cons_of_pos as hp] at h
      injection h with h
      subst h
      exact ⟨as.filter p, List.filter_cons_of_pos hp⟩
    · rw [List.find?_cons_of_neg as hp] at h
      obtain ⟨t, ht⟩ := ih c h
      exact ⟨t, by rw [List.filter_cons_of_neg hp, ht]⟩

theorem filter_nil_of_find?_none {α : Type} (p : α → Bool) (l : List α)
    (h : l.find? p = none) : l.filter p = [] := by
  rw [List.filter_eq_nil_iff]
  exact fun a ha => List.find?_eq_none.mp h a ha

theorem find?_isSome_of_mem {α : Type} (p : α → Bool) (l : List α) (c : α)
    (hm : c ∈ l) (hp : p c = true) : (l.find? p).isSome = true :=
  List.find?_isSome.mpr ⟨c, hm, hp⟩

theorem cumulMatch_ne_empty {c : String} (h : cumulMatch c = true) : c ≠ "" := by
  intro he
  subst he
  exact absurd h (by decide)

theorem dailyMatch_ne_empty {c : String} (h : dailyMatch c = true) : c ≠ "" := by
  intro he
  subst he
  exact absurd h (by decide)

theorem labelIdxs_ne_nil (cols : List String) (c : String) (hm : c ∈ cols) :
    labelIdxs cols c ≠ [] := by
  obtain ⟨i, hi, hg⟩ := List.mem_iff_getElem.mp hm
  refine List.ne_nil_of_mem (a := i) ?_
  unfold labelIdxs
  rw [List.mem_filter]
  refine ⟨List.mem_range.mpr hi, ?_⟩
  rw [List.getD_eq_getElem cols "" hi]
  simp [hg]

theorem zip_fst_sublist {α β : Type} :
    ∀ (as : List α) (bs : List β), List.Sublist ((as.zip bs).map Prod.fst) as := by
  intro as
  induction as with
  | nil => intro bs; simp
  | cons a as ih =>
    intro bs
    cases bs with
    | nil => simp
    | cons b bs => simpa using List.Sublist.cons₂ a (ih bs)

/-- Selection for PnL/Fee/Funding when a cumulative column exists. -/
theorem selectCore_cumul {dt : String} (fn : String) {cols : List String} {c : String}
    (hdt : dt = "PnL" ∨ dt = "Fee" ∨ dt = "Funding")
    (hfind : cols.find? cumulMatch = some c) :
    selectCore dt fn cols = SelOutcome.sel c (dt ++ " Cumulative") := by
  obtain ⟨t, ht⟩ := find?_filter_cons cumulMatch cols c hfind
  rcases hdt with h | h | h <;> subst h <;> simp [selectCore, ht]

/-- Selection for PnL/Fee/Funding: daily fallback. -/
theorem selectCore_daily3 {dt : String} (fn : String) {cols : List String} {c : String}
    (hdt : dt = "PnL" ∨ dt = "Fee" ∨ dt = "Funding")
    (hnone : cols.find? cumulMatch = none)
    (hfind : cols.find? dailyMatch = some c) :
    selectCore dt fn cols = SelOutcome.sel c (dt ++ " Daily") := by
  have h0 := filter_nil_of_find?_none cumulMatch cols hnone
  obtain ⟨t, ht⟩ := find?_filter_cons dailyMatch cols c hfind
  rcases hdt with h | h | h <;> subst h <;> simp [selectCore, h0, ht]

/-- Selection for PnL/Fee/Funding: neither column kind found. -/
theorem selectCore_warn3 {dt : String} (fn : String) {cols : List String}
    (hdt : dt = "PnL" ∨ dt = "Fee" ∨ dt = "Funding")
    (h1 : cols.find? cumulMatch = none) (h2 : cols.find? dailyMatch = none) :
    selectCore dt fn cols =
      SelOutcome.warned ("⚠️ No \x27Cumulative\x27 or \x27Daily\x27 columns found in " ++ fn) := by
  have g1 := filter_nil_of_find?_none cumulMatch cols h1
  have g2 := filter_nil_of_find?_none dailyMatch cols h2
  rcases hdt with h | h | h <;> subst h <;> simp [selectCore, g1, g2]

/-- Selection for Volume when a daily column exists. -/
theorem selectCore_vol_daily (fn : String) {cols : List String} {c : String}
    (hfind : cols.find? dailyMatch = some c) :
    selectCore "Volume" fn cols = SelOutcome.sel c "Volume Daily" := by
  obtain ⟨t, ht⟩ := find?_filter_cons dailyMatch cols c hfind
  simp [selectCore, ht]

/-- Selection for Volume when no daily column exists. -/
theorem selectCore_vol_warn (fn : String) {cols : List String}
    (hnone : cols.find? dailyMatch = none) :
    selectCore "Volume" fn cols =
      SelOutcome.warned ("⚠️ No \x27Daily\x27 columns found in " ++ fn) := by
  have g := filter_nil_of_find?_none dailyMatch cols hnone
  simp [selectCore, g]

/-- Unfolding `processFrame` on a selected column. -/
theorem processFrame_sel {dt fn : String} {df : DataFrame}
    {dates : List Nat} {cols0 : List String} {rows : List (List Cell)} {c nn : String}
    (hstep : stepDate df = Except.ok (dates, cols0, rows))
    (hsel : selectCore dt fn (cols0.map trimStr) = SelOutcome.sel c nn)
    (hne : c ≠ "") :
    processFrame dt fn df =
      Except.ok (some (buildSeries dates (cols0.map trimStr) rows c nn), []) := by
  simp [processFrame, hstep, hsel, hne, Bind.bind, Except.bind, pure, Except.pure]

/-- Unfolding `processFrame` on a missing-column warning. -/
theorem processFrame_warned {dt fn : String} {df : DataFrame}
    {dates : List Nat} {cols0 : List String} {rows : List (List Cell)} {m : String}
    (hstep : stepDate df = Except.ok (dates, cols0, rows))
    (hsel : selectCore dt fn (cols0.map trimStr) = SelOutcome.warned m) :
    processFrame dt fn df = Except.ok (none, [LogMsg.warnNoColumn m]) := by
  simp [processFrame, hstep, hsel, Bind.bind, Except.bind, pure, Except.pure]

/-- Unfolding `processFrame` when no selection branch applies. -/
theorem processFrame_noSel {dt fn : String} {df : DataFrame}
    {dates : List Nat} {cols0 : List String} {rows : List (List Cell)}
    (hstep : stepDate df = Except.ok (dates, cols0, rows))
    (hsel : selectCore dt fn (cols0.map trimStr) = SelOutcome.noSel) :
    processFrame dt fn df = Except.ok (none, []) := by
  simp [processFrame, hstep, hsel, Bind.bind, Except.bind, pure, Except.pure]

/-- Unfolding `load_data` on a parsed table. -/
theorem load_data_table {fs : FileSys} {dt bt : String} {df : DataFrame}
    {r : Option Series} {logs : List LogMsg}
    (hfs : fs (fileName dt bt) = FileState.table df)
    (hpf : processFrame dt (fileName dt bt) df = Except.ok (r, logs)) :
    load_data fs dt bt = (r, LogMsg.caption (fileName dt bt) :: logs) := by
  simp [load_data, hfs, hpf]

/-- Unfolding `load_data` on a caught processing exception. -/
theorem load_data_caught {fs : FileSys} {dt bt : String} {df : DataFrame} {m : String}
    (hfs : fs (fileName dt bt) = FileState.table df)
    (hpf : processFrame dt (fileName dt bt) df = Except.error m) :
    load_data fs dt bt =
      (none, [LogMsg.caption (fileName dt bt),
              LogMsg.errProcessing (fileName dt bt) m]) := by
  simp [load_data, hfs, hpf]

/-- Every column of a built series carries the new name. -/
theorem buildSeries_cols_eq (dates : List Nat) (cols : List String)
    (rows : List (List Cell)) (c nn : String) :
    ∀ nm ∈ (buildSeries dates cols rows c nn).cols, nm = nn := by
  intro nm hnm
  obtain ⟨i, _, h⟩ := List.mem_map.mp hnm
  exact h.symm

/-- A built series has at least one column when the label occurs. -/
theorem buildSeries_cols_ne_nil (dates : List Nat) (cols : List String)
    (rows : List (List Cell)) (c nn : String) (hm : c ∈ cols) :
    (buildSeries dates cols rows c nn).cols ≠ [] := by
  have h := labelIdxs_ne_nil cols c hm
  simp only [buildSeries, ne_eq, List.map_eq_nil_iff]
  exact h

/-! ### Concrete fixtures -/

/-- A disk holding exactly one file. -/
def fsOf (data_type base_type : String) (st : FileState) : FileSys :=
  fun n => if n = fileName data_type base_type then st else FileState.absent

/-- An empty disk. -/
def fsEmpty : FileSys := fun _ => FileState.absent

/-- A PnL table whose only value column is named in all-lower case. -/
def dfLowerCumul : DataFrame :=
  { cols := ["Date", "cumulative pnl"],
    rows := [[Cell.str "2025-04-07", Cell.num 100],
             [Cell.str "2025-04-08", Cell.num 102]] }

/-- Disk carrying `dfLowerCumul` as the PnL/USDBased file. -/
def fsLowerCumul : FileSys := fsOf "PnL" "USDBased" (FileState.table dfLowerCumul)

/-! ### C1 -/

/-- C1 (counterexample): the trimmed column name "cumulative pnl" contains the
substring "cumulative" (so the claimed search — case-insensitive per the spec —
must select it and label the result "PnL Cumulative"), yet `load_data` emits
the missing-column warning and returns absent. -/
theorem c1_cex :
    trimStr "cumulative pnl" = "cumulative pnl"
    ∧ claimCumulMatch "cumulative pnl" = true
    ∧ (load_data fsLowerCumul "PnL" "USDBased").1 = none
    ∧ (load_data fsLowerCumul "PnL" "USDBased").2 =
        [LogMsg.caption (fileName "PnL" "USDBased"),
         LogMsg.warnNoColumn ("⚠️ No \x27Cumulative\x27 or \x27Daily\x27 columns found in "
           ++ fileName "PnL" "USDBased")] := by
  decide

/-- C1 (amended): for PnL, Fee and Funding, load follows the ordered
column-selection policy, but matching the exact substrings
"Cumulative"/"CUMULATIVE" first and "Daily"/"DAILY" second (not an arbitrary
casing of "cumulative"/"daily"): the first matching trimmed column is selected
and the output columns are labelled "<metric> Cumulative" (resp.
"<metric> Daily"); when neither matcher hits any column, a missing-column
warning is emitted and the result is absent. -/
theorem c1_ordered_policy (dt fn : String) (df : DataFrame)
    (dates : List Nat) (cols0 : List String) (rows : List (List Cell))
    (hdt : dt = "PnL" ∨ dt = "Fee" ∨ dt = "Funding")
    (hstep : stepDate df = Except.ok (dates, cols0, rows)) :
    (∀ c, (cols0.map trimStr).find? cumulMatch = some c →
      processFrame dt fn df =
        Except.ok (some (buildSeries dates (cols0.map trimStr) rows c (dt ++ " Cumulative")), [])
      ∧ ∀ nm ∈ (buildSeries dates (cols0.map trimStr) rows c (dt ++ " Cumulative")).cols,
          nm = dt ++ " Cumulative")
    ∧ (∀ c, (cols0.map trimStr).find? cumulMatch = none →
          (cols0.map trimStr).find? dailyMatch = some c →
      processFrame dt fn df =
        Except.ok (some (buildSeries dates (cols0.map trimStr) rows c (dt ++ " Daily")), [])
      ∧ ∀ nm ∈ (buildSeries dates (cols0.map trimStr) rows c (dt ++ " Daily")).cols,
          nm = dt ++ " Daily")
    ∧ ((cols0.map trimStr).find? cumulMatch = none →
       (cols0.map trimStr).find? dailyMatch = none →
      processFrame dt fn df =
        Except.ok (none, [LogMsg.warnNoColumn
          ("⚠️ No \x27Cumulative\x27 or \x27Daily\x27 columns found in " ++ fn)])) := by
  refine ⟨?_, ?_, ?_⟩
  · intro c hfind
    have hsel := selectCore_cumul fn hdt hfind
    have hne := cumulMatch_ne_empty (List.find?_some hfind)
    exact ⟨processFrame_sel hstep hsel hne, buildSeries_cols_eq _ _ _ _ _⟩
  · intro c h0 hfind
    have hsel := selectCore_daily3 fn hdt h0 hfind
    have hne := dailyMatch_ne_empty (List.find?_some hfind)
    exact ⟨processFrame_sel hstep hsel hne, buildSeries_cols_eq _ _ _ _ _⟩
  · intro h1 h2
    exact processFrame_warned hstep (selectCore_warn3 fn hdt h1 h2)

/-- A Fee table with a conventional cumulative column. -/
def dfCumulOk : DataFrame :=
  { cols := ["Date", "Fee Cumulative (USD)"],
    rows := [[Cell.str "2025-04-07", Cell.num 3]] }

/-- Witness for `c1_ordered_policy` at a concrete table. -/
theorem c1_ordered_policy_w :
    processFrame "Fee" "f.csv" dfCumulOk =
      Except.ok (some (buildSeries [20250407] ["Fee Cumulative (USD)"] [[Cell.num 3]]
        "Fee Cumulative (USD)" "Fee Cumulative"), []) :=
  ((c1_ordered_policy "Fee" "f.csv" dfCumulOk [20250407] ["Fee Cumulative (USD)"]
      [[Cell.num 3]] (Or.inr (Or.inl rfl)) (by rfl)).1 "Fee Cumulative (USD)" (by decide)).1

/-! ### C2 -/

/-- A Fee table containing a mixed-case cumulative column. -/
def dfMixedCase : DataFrame :=
  { cols := ["Date", "CuMuLaTiVe"],
    rows := [[Cell.str "2025-04-07", Cell.num 1]] }

/-- Disk carrying `dfMixedCase` as the Fee/USDBased file. -/
def fsMixedCase : FileSys := fsOf "Fee" "USDBased" (FileState.table dfMixedCase)

/-- C2 (counterexample): the column "CuMuLaTiVe" contains "cumulative" in
mixed casing, so the claimed case-insensitive search must find it; the code
matcher does not, the cumulative search comes back empty, and loading the
file warns and returns absent. -/
theorem c2_cex :
    claimCumulMatch "CuMuLaTiVe" = true
    ∧ cumulMatch "CuMuLaTiVe" = false
    ∧ (["CuMuLaTiVe"] : List String).find? cumulMatch = none
    ∧ (load_data fsMixedCase "Fee" "USDBased").1 = none
    ∧ LogMsg.warnNoColumn ("⚠️ No \x27Cumulative\x27 or \x27Daily\x27 columns found in "
        ++ fileName "Fee" "USDBased") ∈ (load_data fsMixedCase "Fee" "USDBased").2 := by
  decide

/-- C2 (amended): column matching is case-sensitive against the two fixed
casings: any column containing "Cumulative" or "CUMULATIVE" verbatim is found
by the cumulative search (likewise "Daily"/"DAILY" for the daily search), and
every column the matchers accept does contain "cumulative" (resp. "daily")
case-insensitively — but other casings, e.g. all-lower-case, are not found. -/
theorem c2_exact_casing (cols : List String) (c : String) :
    (c ∈ cols → (strContains c "Cumulative" || strContains c "CUMULATIVE") = true →
      (cols.find? cumulMatch).isSome = true)
    ∧ (c ∈ cols → (strContains c "Daily" || strContains c "DAILY") = true →
      (cols.find? dailyMatch).isSome = true)
    ∧ (cumulMatch c = true → claimCumulMatch c = true)
    ∧ (dailyMatch c = true → claimDailyMatch c = true) := by
  refine ⟨fun hm hp => find?_isSome_of_mem _ _ _ hm hp,
          fun hm hp => find?_isSome_of_mem _ _ _ hm hp, ?_, ?_⟩
  · intro h
    simp only [cumulMatch, strContains, Bool.or_eq_true] at h
    simp only [claimCumulMatch, claimContainsCI]
    rcases h with h1 | h1
    · have h3 := subAt_map lowerChar _ _ h1
      have e : "Cumulative".data.map lowerChar = "cumulative".data.map lowerChar := by decide
      rw [e] at h3
      exact h3
    · have h3 := subAt_map lowerChar _ _ h1
      have e : "CUMULATIVE".data.map lowerChar = "cumulative".data.map lowerChar := by decide
      rw [e] at h3
      exact h3
  · intro h
    simp only [dailyMatch, strContains, Bool.or_eq_true] at h
    simp only [claimDailyMatch, claimContainsCI]
    rcases h with h1 | h1
    · have h3 := subAt_map lowerChar _ _ h1
      have e : "Daily".data.map lowerChar = "daily".data.map lowerChar := by decide
      rw [e] at h3
      exact h3
    · have h3 := subAt_map lowerChar _ _ h1
      have e : "DAILY".data.map lowerChar = "daily".data.map lowerChar := by decide
      rw [e] at h3
      exact h3

/-- Witness for `c2_exact_casing` at concrete columns. -/
theorem c2_exact_casing_w :
    ((["Date", "Fee CUMULATIVE"] : List String).find? cumulMatch).isSome = true
    ∧ claimCumulMatch "Fee CUMULATIVE" = true :=
  ⟨(c2_exact_casing ["Date", "Fee CUMULATIVE"] "Fee CUMULATIVE").1 (by decide) (by decide),
   (c2_exact_casing ["Date", "Fee CUMULATIVE"] "Fee CUMULATIVE").2.2.1 (by decide)⟩

/-! ### C3 -/

/-- A Volume table that has a cumulative column but no daily column. -/
def dfVolCumul : DataFrame :=
  { cols := ["Date", "Vol Cumulative"],
    rows := [[Cell.str "2025-04-07", Cell.num 9]] }

/-- Disk carrying `dfVolCumul` as the Volume/USDBased file. -/
def fsVolCumul : FileSys := fsOf "Volume" "USDBased" (FileState.table dfVolCumul)

/-- C3 (counterexample): for the Volume metric, a well-formed file whose
trimmed columns contain "Cumulative" yields no series labelled
"Volume Cumulative" — the load warns about the missing daily column and
returns absent. -/
theorem c3_cex :
    cumulMatch "Vol Cumulative" = true
    ∧ (load_data fsVolCumul "Volume" "USDBased").1 = none
    ∧ LogMsg.warnNoColumn ("⚠️ No \x27Daily\x27 columns found in "
        ++ fileName "Volume" "USDBased") ∈ (load_data fsVolCumul "Volume" "USDBased").2 := by
  decide

/-- C3 (amended): for the three metric kinds PnL, Fee and Funding and either
denomination, loading a file whose trimmed columns contain a
"Cumulative"/"CUMULATIVE" column yields a series with at least one column,
all of whose columns are labelled "<metric> Cumulative"; the Volume metric is
excluded (its selection ignores cumulative columns, see C4). -/
theorem c3_cumul_label (fs : FileSys) (dt bt : String) (df : DataFrame)
    (dates : List Nat) (cols0 : List String) (rows : List (List Cell)) (c : String)
    (hdt : dt = "PnL" ∨ dt = "Fee" ∨ dt = "Funding")
    (hfs : fs (fileName dt bt) = FileState.table df)
    (hstep : stepDate df = Except.ok (dates, cols0, rows))
    (hfind : (cols0.map trimStr).find? cumulMatch = some c) :
    ∃ s, (load_data fs dt bt).1 = some s ∧ s.cols ≠ []
      ∧ ∀ nm ∈ s.cols, nm = dt ++ " Cumulative" := by
  have hsel := selectCore_cumul (fileName dt bt) hdt hfind
  have hne := cumulMatch_ne_empty (List.find?_some hfind)
  have hpf := processFrame_sel hstep hsel hne
  have hld := load_data_table hfs hpf
  refine ⟨buildSeries dates (cols0.map trimStr) rows c (dt ++ " Cumulative"), ?_, ?_, ?_⟩
  · rw [hld]
  · exact buildSeries_cols_ne_nil _ _ _ _ _ (List.mem_of_find?_eq_some hfind)
  · exact buildSeries_cols_eq _ _ _ _ _

/-- A Funding table with a padded cumulative column name. -/
def dfFundCumul : DataFrame :=
  { cols := ["Date", " Funding Cumulative (ETH) "],
    rows := [[Cell.str "2025-04-08", Cell.num 2]] }

/-- Disk carrying `dfFundCumul` as the Funding/CoinBased file. -/
def fsFundCumul : FileSys := fsOf "Funding" "CoinBased" (FileState.table dfFundCumul)

/-- Witness for `c3_cumul_label` at a concrete table and denomination. -/
theorem c3_cumul_label_w :
    ∃ s, (load_data fsFundCumul "Funding" "CoinBased").1 = some s ∧ s.cols ≠ []
      ∧ ∀ nm ∈ s.cols, nm = "Funding" ++ " Cumulative" :=
  c3_cumul_label fsFundCumul "Funding" "CoinBased" dfFundCumul
    [20250408] [" Funding Cumulative (ETH) "] [[Cell.num 2]] "Funding Cumulative (ETH)"
    (Or.inr (Or.inr rfl)) rfl (by rfl) (by decide)

/-! ### C4 -/

/-- C4: for the Volume metric kind, selection uses only the "Daily" substring
rule: a selected column always matches the daily matcher and is relabelled
"Volume Daily"; the first daily-matching column is the one selected; when no
column matches the daily matcher — even if a "Cumulative" column exists — the
load warns about the missing daily column and returns absent. -/
theorem c4_volume_daily_only (fn : String) (cols : List String) :
    (∀ c nn, selectCore "Volume" fn cols = SelOutcome.sel c nn →
      dailyMatch c = true ∧ nn = "Volume Daily")
    ∧ (∀ c, cols.find? dailyMatch = some c →
        selectCore "Volume" fn cols = SelOutcome.sel c "Volume Daily")
    ∧ (cols.find? dailyMatch = none →
        selectCore "Volume" fn cols =
          SelOutcome.warned ("⚠️ No \x27Daily\x27 columns found in " ++ fn))
    ∧ (∀ (fs : FileSys) (bt : String) (df : DataFrame) (dates : List Nat)
          (cols0 : List String) (rows : List (List Cell)),
        fs (fileName "Volume" bt) = FileState.table df →
        stepDate df = Except.ok (dates, cols0, rows) →
        (cols0.map trimStr).find? dailyMatch = none →
        load_data fs "Volume" bt =
          (none, [LogMsg.caption (fileName "Volume" bt),
                  LogMsg.warnNoColumn ("⚠️ No \x27Daily\x27 columns found in "
                    ++ fileName "Volume" bt)])) := by
  refine ⟨?_, fun c h => selectCore_vol_daily fn h, fun h => selectCore_vol_warn fn h, ?_⟩
  · intro c nn h
    cases heq : cols.filter dailyMatch with
    | nil =>
      have hn : cols.find? dailyMatch = none :=
        List.find?_eq_none.mpr (List.filter_eq_nil_iff.mp heq)
      rw [selectCore_vol_warn fn hn] at h
      exact SelOutcome.noConfusion h
    | cons a t =>
      have hs : selectCore "Volume" fn cols = SelOutcome.sel a ("Volume" ++ " Daily") := by
        simp [selectCore, heq]
      rw [hs] at h
      injection h with h1 h2
      subst h1
      refine ⟨?_, h2.symm⟩
      exact (List.mem_filter.mp (by rw [heq]; exact List.mem_cons_self a t)).2
  · intro fs bt df dates cols0 rows hfs hstep hnone
    have hsel := selectCore_vol_warn (fileName "Volume" bt) hnone
    exact load_data_table hfs (processFrame_warned hstep hsel)

/-- A Volume table with a cumulative column and no daily column. -/
def dfVolNoDaily : DataFrame :=
  { cols := ["Date", "Volume Cumulative (USD)"],
    rows := [[Cell.str "2025-04-09", Cell.num 4]] }

/-- Disk carrying `dfVolNoDaily` as the Volume/CoinBased file. -/
def fsVolNoDaily : FileSys := fsOf "Volume" "CoinBased" (FileState.table dfVolNoDaily)

/-- Witness for `c4_volume_daily_only` at a concrete table. -/
theorem c4_volume_daily_only_w :
    load_data fsVolNoDaily "Volume" "CoinBased" =
      (none, [LogMsg.caption (fileName "Volume" "CoinBased"),
              LogMsg.warnNoColumn ("⚠️ No \x27Daily\x27 columns found in "
                ++ fileName "Volume" "CoinBased")]) :=
  (c4_volume_daily_only "x" ["Volume Cumulative (USD)"]).2.2.2 fsVolNoDaily "CoinBased"
    dfVolNoDaily [20250409] ["Volume Cumulative (USD)"] [[Cell.num 4]] rfl (by rfl) (by decide)

/-! ### C5 -/

/-- Every row of a built series is keyed by one of the parsed dates. -/
theorem buildSeries_row_fst_mem (dates : List Nat) (cols : List String)
    (rows : List (List Cell)) (c nn : String) :
    ∀ dr ∈ (buildSeries dates cols rows c nn).rows, dr.1 ∈ dates := by
  intro dr hdr
  have h1 := List.mem_of_mem_filter hdr
  obtain ⟨src, hsrc, heq⟩ := List.mem_map.mp h1
  obtain ⟨a, b⟩ := src
  obtain ⟨h2, -⟩ := List.of_mem_zip hsrc
  rw [← heq]
  exact h2

/-- A table whose date header carries surrounding spaces. -/
def dfPaddedDate : DataFrame :=
  { cols := [" Date ", "PnL Cumulative"],
    rows := [[Cell.str "2025-04-07", Cell.num 1]] }

/-- Disk carrying `dfPaddedDate` as the PnL/CoinBased file. -/
def fsPaddedDate : FileSys := fsOf "PnL" "CoinBased" (FileState.table dfPaddedDate)

/-- C5 (counterexample): a header " Date " trims to "Date", so under the claim
the date column must be recognized and a series produced; the code instead
raises a caught KeyError (the date column is looked up before trimming) and
`load_data` reports an error and returns absent. -/
theorem c5_cex :
    trimStr " Date " = "Date"
    ∧ load_data fsPaddedDate "PnL" "CoinBased" =
        (none, [LogMsg.caption (fileName "PnL" "CoinBased"),
                LogMsg.errProcessing (fileName "PnL" "CoinBased") "KeyError: \x27Date\x27"]) := by
  decide

/-- C5 (amended): column names are trimmed only AFTER the date column is
located (by its exact, untrimmed name "Date") and parsed, and before value
column selection: a table with no column named exactly "Date" raises a caught
KeyError, so load reports an error and returns absent even when a header trims
to "Date"; with an exact "Date" column, the remaining names are trimmed for
value-column selection and every returned row is keyed by a parsed date. -/
theorem c5_trim_after_date (dt fn : String) (df : DataFrame) :
    (df.cols.findIdx? (fun c => c = "Date") = none →
      processFrame dt fn df = Except.error "KeyError: \x27Date\x27")
    ∧ (∀ (dates : List Nat) (cols0 : List String) (rows : List (List Cell)) (c : String),
        stepDate df = Except.ok (dates, cols0, rows) →
        (dt = "PnL" ∨ dt = "Fee" ∨ dt = "Funding") →
        (cols0.map trimStr).find? cumulMatch = some c →
        processFrame dt fn df =
          Except.ok (some (buildSeries dates (cols0.map trimStr) rows c (dt ++ " Cumulative")), [])
        ∧ ∀ dr ∈ (buildSeries dates (cols0.map trimStr) rows c (dt ++ " Cumulative")).rows,
            dr.1 ∈ dates) := by
  constructor
  · intro h
    have hs : stepDate df = Except.error "KeyError: \x27Date\x27" := by
      simp [stepDate, h]
    simp [processFrame, hs, Bind.bind, Except.bind]
  · intro dates cols0 rows c hstep hdt hfind
    have hsel := selectCore_cumul fn hdt hfind
    have hne := cumulMatch_ne_empty (List.find?_some hfind)
    exact ⟨processFrame_sel hstep hsel hne, buildSeries_row_fst_mem _ _ _ _ _⟩

/-- A PnL table with an exact "Date" header and a padded value column. -/
def dfPaddedValue : DataFrame :=
  { cols := ["Date", "  PnL Cumulative  "],
    rows := [[Cell.str "2025-04-10", Cell.num 7]] }

/-- Witness for `c5_trim_after_date` at a concrete table. -/
theorem c5_trim_after_date_w :
    processFrame "PnL" "g.csv" dfPaddedValue =
      Except.ok (some (buildSeries [20250410] ["PnL Cumulative"] [[Cell.num 7]]
        "PnL Cumulative" "PnL Cumulative"), [])
    ∧ ∀ dr ∈ (buildSeries [20250410] ["PnL Cumulative"] [[Cell.num 7]]
        "PnL Cumulative" "PnL Cumulative").rows, dr.1 ∈ [20250410] :=
  (c5_trim_after_date "PnL" "g.csv" dfPaddedValue).2 [20250410] ["  PnL Cumulative  "]
    [[Cell.num 7]] "PnL Cumulative" (by rfl) (Or.inl rfl) (by decide)

/-! ### C6 -/

/-- C6: `load_data` never propagates an exception to its caller: it is a total
function into an optional series plus diagnostics; a missing file yields the
missing-file error and absent, an unreadable file yields a caught error
message and absent, and any processing exception is caught and reported as an
error message with an absent result. -/
theorem c6_no_exception (fs : FileSys) (dt bt : String) :
    ((load_data fs dt bt).1 = none ∨ ∃ s, (load_data fs dt bt).1 = some s)
    ∧ (fs (fileName dt bt) = FileState.absent →
        load_data fs dt bt = (none, [LogMsg.errFileMissing (fileName dt bt)]))
    ∧ (∀ m, fs (fileName dt bt) = FileState.unreadable m →
        load_data fs dt bt = (none, [LogMsg.errProcessing (fileName dt bt) m]))
    ∧ (∀ (df : DataFrame) (m : String), fs (fileName dt bt) = FileState.table df →
        processFrame dt (fileName dt bt) df = Except.error m →
        load_data fs dt bt =
          (none, [LogMsg.caption (fileName dt bt),
                  LogMsg.errProcessing (fileName dt bt) m])) := by
  refine ⟨?_, ?_, ?_, ?_⟩
  · cases h : (load_data fs dt bt).1 with
    | none => exact Or.inl rfl
    | some s => exact Or.inr ⟨s, rfl⟩
  · intro h
    simp [load_data, h]
  · intro m h
    simp [load_data, h]
  · intro df m hfs hpf
    exact load_data_caught hfs hpf

/-- Witness for `c6_no_exception` on an empty disk. -/
theorem c6_no_exception_w :
    load_data fsEmpty "PnL" "USDBased" =
      (none, [LogMsg.errFileMissing (fileName "PnL" "USDBased")]) :=
  (c6_no_exception fsEmpty "PnL" "USDBased").2.1 rfl

/-! ### C7 -/

/-- C7: rows whose selected value is missing are dropped and nothing else: for
a successfully loaded file, the series length equals the number of projected
source rows whose selected cells are all defined, every returned row has only
defined cells, and every returned row occurs among the projected source rows
(values unchanged). -/
theorem c7_dropna (fs : FileSys) (dt bt : String) (df : DataFrame)
    (dates : List Nat) (cols0 : List String) (rows : List (List Cell)) (c nn : String)
    (hfs : fs (fileName dt bt) = FileState.table df)
    (hstep : stepDate df = Except.ok (dates, cols0, rows))
    (hsel : selectCore dt (fileName dt bt) (cols0.map trimStr) = SelOutcome.sel c nn)
    (hne : c ≠ "") :
    (load_data fs dt bt).1 = some (buildSeries dates (cols0.map trimStr) rows c nn)
    ∧ (buildSeries dates (cols0.map trimStr) rows c nn).rows.length =
        ((dates.zip rows).map (projRow (cols0.map trimStr) c)).countP rowDefined
    ∧ ∀ dr ∈ (buildSeries dates (cols0.map trimStr) rows c nn).rows,
        rowDefined dr = true ∧ dr ∈ (dates.zip rows).map (projRow (cols0.map trimStr) c) := by
  have hpf := processFrame_sel hstep hsel hne
  have hld := load_data_table hfs hpf
  refine ⟨by rw [hld], ?_, ?_⟩
  · rw [List.countP_eq_length_filter]
    rfl
  · intro dr hdr
    exact ⟨(List.mem_filter.mp hdr).2, List.mem_of_mem_filter hdr⟩

/-- A Volume table in which one row has a missing value. -/
def dfVolNa : DataFrame :=
  { cols := ["Date", "Volume Daily"],
    rows := [[Cell.str "2025-04-07", Cell.na], [Cell.str "2025-04-08", Cell.num 5]] }

/-- Disk carrying `dfVolNa` as the Volume/USDBased file. -/
def fsVolNa : FileSys := fsOf "Volume" "USDBased" (FileState.table dfVolNa)

/-- Witness for `c7_dropna`: the row with the missing value is dropped, the
defined row survives unchanged. -/
theorem c7_dropna_w :
    (load_data fsVolNa "Volume" "USDBased").1 =
      some (buildSeries [20250407, 20250408] ["Volume Daily"] [[Cell.na], [Cell.num 5]]
        "Volume Daily" "Volume Daily")
    ∧ (buildSeries [20250407, 20250408] ["Volume Daily"] [[Cell.na], [Cell.num 5]]
        "Volume Daily" "Volume Daily").rows = [(20250408, [Cell.num 5])] :=
  ⟨(c7_dropna fsVolNa "Volume" "USDBased" dfVolNa [20250407, 20250408] ["Volume Daily"]
      [[Cell.na], [Cell.num 5]] "Volume Daily" "Volume Daily" rfl (by rfl) (by rfl)
      (by decide)).1,
   by decide⟩

/-! ### C8 -/

/-- C8: the returned series preserves the source file's row order: the
returned rows form an order-preserving subsequence of the projected source
rows, and the returned date keys form an order-preserving subsequence of the
parsed dates as read — no re-sort happens, even for non-chronological data. -/
theorem c8_source_order (fs : FileSys) (dt bt : String) (df : DataFrame)
    (dates : List Nat) (cols0 : List String) (rows : List (List Cell)) (c nn : String)
    (hfs : fs (fileName dt bt) = FileState.table df)
    (hstep : stepDate df = Except.ok (dates, cols0, rows))
    (hsel : selectCore dt (fileName dt bt) (cols0.map trimStr) = SelOutcome.sel c nn)
    (hne : c ≠ "") :
    ∃ s, (load_data fs dt bt).1 = some s
      ∧ List.Sublist s.rows ((dates.zip rows).map (projRow (cols0.map trimStr) c))
      ∧ List.Sublist (s.rows.map Prod.fst) dates := by
  have hpf := processFrame_sel hstep hsel hne
  have hld := load_data_table hfs hpf
  refine ⟨buildSeries dates (cols0.map trimStr) rows c nn, by rw [hld], ?_, ?_⟩
  · exact List.filter_sublist _
  · have h1 : List.Sublist
        ((buildSeries dates (cols0.map trimStr) rows c nn).rows.map Prod.fst)
        (((dates.zip rows).map (projRow (cols0.map trimStr) c)).map Prod.fst) :=
      List.Sublist.map Prod.fst (List.filter_sublist _)
    have h2 : (((dates.zip rows).map (projRow (cols0.map trimStr) c)).map Prod.fst) =
        (dates.zip rows).map Prod.fst := by
      rw [List.map_map]
      exact List.map_congr_left fun x _ => rfl
    rw [h2] at h1
    exact h1.trans (zip_fst_sublist dates rows)

/-- A Fee table whose rows are not in chronological order. -/
def dfUnsorted : DataFrame :=
  { cols := ["Date", "Fee Daily"],
    rows := [[Cell.str "2025-04-09", Cell.num 7], [Cell.str "2025-04-07", Cell.num 1],
             [Cell.str "2025-04-08", Cell.num 3]] }

/-- Disk carrying `dfUnsorted` as the Fee/CoinBased file. -/
def fsUnsorted : FileSys := fsOf "Fee" "CoinBased" (FileState.table dfUnsorted)

/-- Witness for `c8_source_order`: the non-chronological order 09, 07, 08 is
preserved verbatim in the output. -/
theorem c8_source_order_w :
    (∃ s, (load_data fsUnsorted "Fee" "CoinBased").1 = some s
      ∧ List.Sublist s.rows (([20250409, 20250407, 20250408].zip
          [[Cell.num 7], [Cell.num 1], [Cell.num 3]]).map (projRow ["Fee Daily"] "Fee Daily"))
      ∧ List.Sublist (s.rows.map Prod.fst) [20250409, 20250407, 20250408])
    ∧ (load_data fsUnsorted "Fee" "CoinBased").1.map Series.rows =
        some [(20250409, [Cell.num 7]), (20250407, [Cell.num 1]), (20250408, [Cell.num 3])] :=
  ⟨c8_source_order fsUnsorted "Fee" "CoinBased" dfUnsorted [20250409, 20250407, 20250408]
      ["Fee Daily"] [[Cell.num 7], [Cell.num 1], [Cell.num 3]] "Fee Daily" "Fee Daily"
      rfl (by rfl) (by rfl) (by decide),
   by decide⟩

/-! ### C9 -/

/-- Selecting the unique label of a single-column series. -/
theorem labelIdxs_single (nm : String) : labelIdxs [nm] nm = [0] := by
  have h : List.range 1 = [0] := rfl
  simp [labelIdxs, h, List.getD_cons_zero]

/-- C9: the presenter shows the "no data" placeholder exactly for an absent or
zero-row series; otherwise it renders the title and the last-by-index value as
the headline metric with the given unit suffix, using 2 decimal places when
the column label contains "Cumulative" and 4 decimal places otherwise. -/
theorem c9_presenter (title unitStr nm : String) (s : Series) (d : Nat) (tl : List Cell) (q : ℚ)
    (hcols : s.cols = [nm])
    (hlast : s.rows.getLast? = some (d, tl))
    (hval : tl.getD 0 Cell.na = Cell.num q) :
    (strContains nm "Cumulative" = true →
      display_data_block title (some s) unitStr =
        Except.ok (DisplayOut.block title nm (Cell.num q) 2 unitStr s
          (s.rows.drop (s.rows.length - 7))))
    ∧ (strContains nm "Cumulative" = false →
      display_data_block title (some s) unitStr =
        Except.ok (DisplayOut.block title nm (Cell.num q) 4 unitStr s
          (s.rows.drop (s.rows.length - 7))))
    ∧ display_data_block title none unitStr = Except.ok (DisplayOut.noData title)
    ∧ (∀ s2 : Series, s2.rows = [] →
        display_data_block title (some s2) unitStr = Except.ok (DisplayOut.noData title)) := by
  obtain ⟨scols, srows⟩ := s
  obtain rfl : scols = [nm] := hcols
  have hlast2 : srows.getLast? = some (d, tl) := hlast
  have hne : srows ≠ [] := by
    intro h
    rw [h] at hlast2
    exact Option.noConfusion hlast2
  have hkey : display_data_block title (some (Series.mk [nm] srows)) unitStr =
      Except.ok (DisplayOut.block title nm (Cell.num q)
        (if strContains nm "Cumulative" then 2 else 4) unitStr (Series.mk [nm] srows)
        (srows.drop (srows.length - 7))) := by
    cases srows with
    | nil => exact absurd rfl hne
    | cons r rs =>
      simp only [display_data_block, List.isEmpty_cons, Bool.false_or, List.headD_cons,
        labelIdxs_single, hlast2, hval]
      rfl
  refine ⟨?_, ?_, rfl, ?_⟩
  · intro h
    rw [hkey, h]
    rfl
  · intro h
    rw [hkey, h]
    rfl
  · intro s2 h
    simp [display_data_block, h]

/-- A two-row cumulative PnL series. -/
def sW9 : Series :=
  { cols := ["PnL Cumulative"],
    rows := [(20250407, [Cell.num 100]), (20250408, [Cell.num 102])] }

/-- Witness for `c9_presenter`: headline is the last value with 2 decimals. -/
theorem c9_presenter_w :
    display_data_block "T" (some sW9) "$" =
      Except.ok (DisplayOut.block "T" "PnL Cumulative" (Cell.num 102) 2 "$" sW9
        (sW9.rows.drop (sW9.rows.length - 7))) :=
  (c9_presenter "T" "$" "PnL Cumulative" sW9 20250408 [Cell.num 102] 102
    rfl (by rfl) rfl).1 (by decide)

/-! ### C10 -/

/-- C10: for a data_type outside the four metric kinds, loading an existing,
parseable table with a valid Date column returns absent silently: the only
diagnostic is the load caption, and no missing-column warning is emitted. -/
theorem c10_unknown_type (fs : FileSys) (dt bt : String) (df : DataFrame)
    (dates : List Nat) (cols0 : List String) (rows : List (List Cell))
    (hdt : dt ∉ (["PnL", "Fee", "Funding", "Volume"] : List String))
    (hfs : fs (fileName dt bt) = FileState.table df)
    (hstep : stepDate df = Except.ok (dates, cols0, rows)) :
    load_data fs dt bt = (none, [LogMsg.caption (fileName dt bt)])
    ∧ ∀ m, LogMsg.warnNoColumn m ∉ (load_data fs dt bt).2 := by
  simp only [List.mem_cons, List.not_mem_nil, or_false, not_or] at hdt
  obtain ⟨h1, h2, h3, h4⟩ := hdt
  have hsel : selectCore dt (fileName dt bt) (cols0.map trimStr) = SelOutcome.noSel := by
    simp [selectCore, h1, h2, h3, h4]
  have hld := load_data_table hfs (processFrame_noSel hstep hsel)
  refine ⟨hld, ?_⟩
  intro m hm
  rw [hld] at hm
  simp at hm

/-- A table with a cumulative column, used under an unknown data_type. -/
def dfMisc : DataFrame :=
  { cols := ["Date", "Whatever Cumulative"],
    rows := [[Cell.str "2025-04-07", Cell.num 1]] }

/-- Disk carrying `dfMisc` as a file named for the unknown type "Foo". -/
def fsMisc : FileSys := fsOf "Foo" "USDBased" (FileState.table dfMisc)

/-- Witness for `c10_unknown_type` at the unknown data_type "Foo". -/
theorem c10_unknown_type_w :
    load_data fsMisc "Foo" "USDBased" = (none, [LogMsg.caption (fileName "Foo" "USDBased")]) :=
  (c10_unknown_type fsMisc "Foo" "USDBased" dfMisc [20250407] ["Whatever Cumulative"]
    [[Cell.num 1]] (by decide) rfl (by rfl)).1

end WebJr
